import Mathlib

/-!
Shallow embedding of the core state of `src/main.py` (a Telegram
file-request bot): the request ledger (`pending_requests`), the
membership cache (`user_membership_status`), and the per-admin
interaction context (`context.user_data` keys `sending_file_for`,
`posting_channel_for`, `sending_reason_for`), together with the
handlers that read and mutate them.

Gateway I/O (message sends, caption edits, file forwards) is modelled
as a list of `Effect` values the handler emits; the external
`get_chat_member` call is modelled as an `Except Unit ChatStatus`
oracle argument.  Timestamps are natural numbers (seconds).
-/

set_option autoImplicit false

namespace ReqBot

/-- Python dict lookup `d[k]` / `k in d`: first entry with the key, if any.
Models lookups into `pending_requests` and `user_membership_status`. -/
def dictFind {α : Type} : List (Nat × α) → Nat → Option α
  | [], _ => none
  | (k, v) :: rest, k2 => if k = k2 then some v else dictFind rest k2

/-- Python dict assignment `d[k] = v`: overwrite the entry at the key if
present (keeping insertion order), otherwise append a new entry. -/
def dictInsert {α : Type} : List (Nat × α) → Nat → α → List (Nat × α)
  | [], k, v => [(k, v)]
  | (k2, v2) :: rest, k, v =>
      if k2 = k then (k, v) :: rest else (k2, v2) :: dictInsert rest k v

/-- Request status strings stored in `pending_requests[...]["status"]`
(`src/main.py` lines 207, 296, 328, 450, 494, 548). -/
inductive Status where
  | pending
  | approved
  | rejected
  | completed
  | posted_to_channel
  | rejected_with_reason
deriving DecidableEq

/-- One `pending_requests` record (`src/main.py` lines 204-209). -/
structure Request where
  user_id : Nat
  message_id : Nat
  status : Status
  timestamp : Nat
deriving DecidableEq

/-- The `pending_requests` dict: request id to record. -/
abbrev Ledger : Type := List (Nat × Request)

/-- The `user_membership_status` dict: user id to `(last_check, is_member)`. -/
abbrev MemCache : Type := List (Nat × (Nat × Bool))

/-- Telegram chat-member status values returned by `get_chat_member` or
carried by a `ChatMemberUpdated` event. -/
inductive ChatStatus where
  | member
  | administrator
  | creator
  | restricted
  | left
  | kicked
deriving DecidableEq

/-- The membership classification used at `src/main.py` lines 139 and
183-184: `status in ["member", "administrator", "creator"]`. -/
def isMemberStatus : ChatStatus → Bool
  | .member => true
  | .administrator => true
  | .creator => true
  | _ => false

/-- Result of one `check_user_membership` call: the boolean verdict, the
updated cache, and whether the external `get_chat_member` lookup ran. -/
structure CheckResult where
  verdict : Bool
  cache : MemCache
  called : Bool
deriving DecidableEq

/-- The early-return condition of `check_user_membership`
(`src/main.py` lines 130-135): with `force_check` false and a cache
entry younger than 3600 seconds, the cached verdict is returned. -/
def cacheHit (cache : MemCache) (uid : Nat) (force : Bool) (now : Nat) :
    Option Bool :=
  if force then none
  else
    match dictFind cache uid with
    | none => none
    | some (last, m) => if now - last < 3600 then some m else none

/-- Embedding of `check_user_membership` (`src/main.py` lines 127-148).
The external `get_chat_member` call is the `lookup` argument: `.ok st`
is a successful lookup returning chat-member status `st`, `.error ()`
is any raised exception.  On a fresh cache entry (non-forced) the
cached verdict is returned with no external call; otherwise the lookup
runs and its classification — `false` on any error — is written to the
cache with `checkedAt = now`. -/
def check_user_membership (cache : MemCache) (uid : Nat) (force : Bool)
    (now : Nat) (lookup : Except Unit ChatStatus) : CheckResult :=
  match cacheHit cache uid force now with
  | some m => { verdict := m, cache := cache, called := false }
  | none =>
    match lookup with
    | .ok st =>
        let m := isMemberStatus st
        { verdict := m, cache := dictInsert cache uid (now, m), called := true }
    | .error _ =>
        { verdict := false, cache := dictInsert cache uid (now, false), called := true }

/-- Embedding of `extract_status_change` (`src/main.py` lines 175-186):
`(was_member, is_member)` from the old and new chat-member statuses.
The `difference()` reads at lines 177-178 bind values that the function
never uses, and the typed `None` case never occurs, so the function
always returns this pair. -/
def extract_status_change (oldSt newSt : ChatStatus) : Bool × Bool :=
  (isMemberStatus oldSt, isMemberStatus newSt)

/-- Embedding of `track_chat_member` (`src/main.py` lines 163-173): on a
membership-change event the user's cache entry is overwritten with
`(time.time(), is_member)` unconditionally. -/
def track_chat_member (cache : MemCache) (uid : Nat) (oldSt newSt : ChatStatus)
    (now : Nat) : MemCache :=
  let r := extract_status_change oldSt newSt
  dictInsert cache uid (now, r.2)

/-- Embedding of the request-creation body of `handle_photo`
(`src/main.py` lines 200-209), reached after the membership gate
(modelled separately by `check_user_membership`) has passed:
`request_id = int(time.time())` and a fresh record with status
`pending` is stored at that key.  Returns the ledger and the id. -/
def handle_photo_create (ledger : Ledger) (uid mid now : Nat) :
    Ledger × Nat :=
  (dictInsert ledger now
    { user_id := uid, message_id := mid, status := .pending, timestamp := now },
   now)

/-- The per-admin `context.user_data` keys read and written by
`handle_admin_button` and `handle_admin_message`.  `none` models an
absent key; Python `del` sets a field back to `none`. -/
structure AdminData where
  sending_file_for : Option Nat
  posting_channel_for : Option Nat
  sending_reason_for : Option Nat
deriving DecidableEq

/-- The admin context with no key set. -/
def noExpect : AdminData :=
  { sending_file_for := none, posting_channel_for := none, sending_reason_for := none }

/-- Python truthiness of `context.user_data.get(key)` for an integer
value: falsy when the key is absent or the stored integer is `0`. -/
def optTruthy : Option Nat → Bool
  | none => false
  | some n => n != 0

/-- Python truthiness of `update.message.text`: falsy when absent or
the empty string. -/
def strTruthy : Option String → Bool
  | none => false
  | some s => s != ""

/-- The string held by an optional text, defaulting to empty. -/
def strOf : Option String → String
  | none => ""
  | some s => s

/-- Callback-data actions parsed at `src/main.py` lines 280-282
(`query.data.split`): the five admin button actions. -/
inductive BtnAction where
  | approve
  | reject
  | sendfile
  | postchannel
  | sendreason
deriving DecidableEq

/-- Outbound gateway requests a handler performs, in program order.
Each constructor corresponds to one `await` call in `src/main.py`. -/
inductive Effect where
  | removeMarkup
  | editCaptionNotFound
  | editCaptionApproved
  | editCaptionRejected
  | editCaptionAwaitFile
  | editCaptionAwaitPost
  | editCaptionAwaitReason
  | notifyUserApproved (uid rid : Nat)
  | notifyUserRejected (uid rid : Nat)
  | instructAdminFile (rid : Nat)
  | instructAdminPost (rid : Nat)
  | instructAdminReason (rid : Nat)
  | replyNotFound
  | forwardFileToUser (uid rid : Nat)
  | confirmFileSent (rid : Nat)
  | postFileToChannel (rid : Nat)
  | sendPostedFileToUser (uid rid : Nat)
  | confirmPosted (rid : Nat)
  | notifyUserReason (uid rid : Nat) (reason : String)
  | confirmReasonSent (rid : Nat)
deriving DecidableEq

/-- A message an admin sends the bot, as inspected by
`handle_admin_message`: whether it carries a document, a video, and its
optional text. -/
structure Msg where
  document : Bool
  video : Bool
  text : Option String
deriving DecidableEq

/-- Embedding of `handle_admin_button` (`src/main.py` lines 248-405)
from the admin check at line 275 on (the `verify_membership` callback
at lines 253-270 only touches the membership gate and is covered by
`check_user_membership`).  A non-admin press only removes the button
markup.  For an admin: an unknown `request_id` edits the caption with
`Error: Request not found in system` and returns with no state change;
otherwise the action is applied with no check of the current status —
`approve`/`reject` overwrite the status, the three follow-up actions
record the corresponding `user_data` key and leave the ledger alone. -/
def handle_admin_button (isAdmin : Bool) (ledger : Ledger) (ud : AdminData)
    (action : BtnAction) (rid : Nat) : Ledger × AdminData × List Effect :=
  if !isAdmin then (ledger, ud, [.removeMarkup])
  else
    match dictFind ledger rid with
    | none => (ledger, ud, [.editCaptionNotFound])
    | some req =>
      match action with
      | .approve =>
          (dictInsert ledger rid { req with status := .approved }, ud,
           [.editCaptionApproved, .notifyUserApproved req.user_id rid])
      | .reject =>
          (dictInsert ledger rid { req with status := .rejected }, ud,
           [.editCaptionRejected, .notifyUserRejected req.user_id rid])
      | .sendfile =>
          (ledger, { ud with sending_file_for := some rid },
           [.editCaptionAwaitFile, .instructAdminFile rid])
      | .postchannel =>
          (ledger, { ud with posting_channel_for := some rid },
           [.editCaptionAwaitPost, .instructAdminPost rid])
      | .sendreason =>
          (ledger, { ud with sending_reason_for := some rid },
           [.editCaptionAwaitReason, .instructAdminReason rid])

/-- Embedding of `handle_admin_message` (`src/main.py` lines 407-554).
A non-admin message is ignored.  For an admin the three `user_data`
keys are read; the first branch whose key is truthy and whose expected
artifact is present fires: it looks the recorded request id up in the
ledger (replying `Error: Request not found in system` and returning —
without clearing the key — when absent), forwards or posts the
artifact, overwrites the status (`completed`, `posted_to_channel`, or
`rejected_with_reason` — again with no check of the current status),
and deletes the consumed key.  With no truthy matching key the message
is inert. -/
def handle_admin_message (isAdmin : Bool) (ledger : Ledger) (ud : AdminData)
    (msg : Msg) : Ledger × AdminData × List Effect :=
  if !isAdmin then (ledger, ud, [])
  else if optTruthy ud.sending_file_for && (msg.document || msg.video) then
    let rid := match ud.sending_file_for with | some n => n | none => 0
    match dictFind ledger rid with
    | none => (ledger, ud, [.replyNotFound])
    | some req =>
        (dictInsert ledger rid { req with status := .completed },
         { ud with sending_file_for := none },
         [.forwardFileToUser req.user_id rid, .confirmFileSent rid])
  else if optTruthy ud.posting_channel_for && (msg.document || msg.video) then
    let rid := match ud.posting_channel_for with | some n => n | none => 0
    match dictFind ledger rid with
    | none => (ledger, ud, [.replyNotFound])
    | some req =>
        (dictInsert ledger rid { req with status := .posted_to_channel },
         { ud with posting_channel_for := none },
         [.postFileToChannel rid, .sendPostedFileToUser req.user_id rid,
          .confirmPosted rid])
  else if optTruthy ud.sending_reason_for && strTruthy msg.text then
    let rid := match ud.sending_reason_for with | some n => n | none => 0
    match dictFind ledger rid with
    | none => (ledger, ud, [.replyNotFound])
    | some req =>
        (dictInsert ledger rid { req with status := .rejected_with_reason },
         { ud with sending_reason_for := none },
         [.notifyUserReason req.user_id rid (strOf msg.text),
          .confirmReasonSent rid])
  else (ledger, ud, [])

/-- The three expectation kinds of the spec, each backed by one
`user_data` key in the source. -/
inductive ExpectKind where
  | awaitingFile
  | awaitingChannelPost
  | awaitingReason
deriving DecidableEq

/-- Admin context holding exactly one expectation of the given kind. -/
def expectOnly : ExpectKind → Nat → AdminData
  | .awaitingFile, rid =>
      { sending_file_for := some rid, posting_channel_for := none,
        sending_reason_for := none }
  | .awaitingChannelPost, rid =>
      { sending_file_for := none, posting_channel_for := some rid,
        sending_reason_for := none }
  | .awaitingReason, rid =>
      { sending_file_for := none, posting_channel_for := none,
        sending_reason_for := some rid }

/-- Whether a message carries the artifact an expectation kind awaits:
a document or video for the two file kinds, truthy text for a reason. -/
def msgMatches : ExpectKind → Msg → Bool
  | .awaitingFile, msg => msg.document || msg.video
  | .awaitingChannelPost, msg => msg.document || msg.video
  | .awaitingReason, msg => strTruthy msg.text

/-- The status each resolved expectation kind writes
(`src/main.py` lines 450, 494, 548). -/
def resolveStatus : ExpectKind → Status
  | .awaitingFile => .completed
  | .awaitingChannelPost => .posted_to_channel
  | .awaitingReason => .rejected_with_reason

/-- Sample request record used to instantiate theorems concretely. -/
def sampleReq (st : Status) (t : Nat) : Request :=
  { user_id := 5, message_id := 50, status := st, timestamp := t }

/-- One-entry ledger holding `sampleReq st t` under the key `t`. -/
def sampleLedger (st : Status) (t : Nat) : Ledger :=
  [(t, sampleReq st t)]

/-- A document-carrying admin message. -/
def docMsg : Msg :=
  { document := true, video := false, text := none }

/-- A video-carrying admin message. -/
def vidMsg : Msg :=
  { document := false, video := true, text := none }

/-- A plain-text admin message. -/
def textMsg : Msg :=
  { document := false, video := false, text := some ("blurry") }

/-! ### Dictionary lemmas -/

theorem dictFind_insert_self {α : Type} (l : List (Nat × α)) (k : Nat) (v : α) :
    dictFind (dictInsert l k v) k = some v := by
  induction l with
  | nil => simp [dictFind, dictInsert]
  | cons p rest ih =>
    obtain ⟨k2, v2⟩ := p
    by_cases h : k2 = k
    · simp [dictFind, dictInsert, h]
    · simp [dictFind, dictInsert, h, ih]

theorem dictFind_insert_ne {α : Type} (l : List (Nat × α)) (k k2 : Nat) (v : α)
    (h : k ≠ k2) : dictFind (dictInsert l k v) k2 = dictFind l k2 := by
  induction l with
  | nil => simp [dictFind, dictInsert, h]
  | cons p rest ih =>
    obtain ⟨k3, v3⟩ := p
    by_cases h3 : k3 = k
    · subst h3
      simp [dictFind, dictInsert, h]
    · by_cases h4 : k3 = k2 <;>
        simp [dictFind, dictInsert, h3, h4, Ne.symm h, ih]

/-! ### Membership gate (claims C5, C6, C8) -/

/-- C6: with a cached `MembershipRecord` whose `checkedAt` lies within
the 1-hour TTL of both call times, a non-forced `IsMember` call returns
the cached verdict with no external lookup and leaves the cache
untouched, so two such calls return the same verdict and together
trigger no (hence at most one) external lookup. -/
theorem cache_hit_no_external_call (cache : MemCache) (uid last now1 now2 : Nat)
    (m : Bool) (lk1 lk2 : Except Unit ChatStatus)
    (hfind : dictFind cache uid = some (last, m))
    (h1 : now1 - last < 3600) (h2 : now2 - last < 3600) :
    (check_user_membership cache uid false now1 lk1).verdict = m ∧
    (check_user_membership cache uid false now1 lk1).called = false ∧
    (check_user_membership cache uid false now1 lk1).cache = cache ∧
    (check_user_membership
        (check_user_membership cache uid false now1 lk1).cache
        uid false now2 lk2).verdict = m ∧
    (check_user_membership
        (check_user_membership cache uid false now1 lk1).cache
        uid false now2 lk2).called = false := by
  have hit1 : cacheHit cache uid false now1 = some m := by
    simp [cacheHit, hfind, h1]
  have hit2 : cacheHit cache uid false now2 = some m := by
    simp [cacheHit, hfind, h2]
  simp [check_user_membership, hit1, hit2]

/-- Witness for `cache_hit_no_external_call` at a concrete cache. -/
theorem cache_hit_no_external_call_witness :
    dictFind [(7, (100, true))] 7 = some (100, true) ∧
    200 - 100 < 3600 ∧ 300 - 100 < 3600 ∧
    ((check_user_membership [(7, (100, true))] 7 false 200 (.error ())).verdict = true ∧
     (check_user_membership [(7, (100, true))] 7 false 200 (.error ())).called = false ∧
     (check_user_membership [(7, (100, true))] 7 false 200 (.error ())).cache
        = [(7, (100, true))] ∧
     (check_user_membership
        (check_user_membership [(7, (100, true))] 7 false 200 (.error ())).cache
        7 false 300 (.error ())).verdict = true ∧
     (check_user_membership
        (check_user_membership [(7, (100, true))] 7 false 200 (.error ())).cache
        7 false 300 (.error ())).called = false) :=
  ⟨by decide, by decide, by decide,
   cache_hit_no_external_call [(7, (100, true))] 7 100 200 300 true (.error ())
     (.error ()) (by decide) (by decide) (by decide)⟩

/-- C5: whenever a `check_user_membership` call actually reaches the
external lookup (`called = true`) and that lookup fails, the verdict is
`false` and `(now, false)` is written to the cache; a later non-forced
call within the TTL then returns `false` again without invoking the
lookup. -/
theorem lookup_failure_cached_false (cache : MemCache) (uid now1 now2 : Nat)
    (force : Bool) (lk2 : Except Unit ChatStatus)
    (hcall : (check_user_membership cache uid force now1 (.error ())).called = true)
    (hfresh : now2 - now1 < 3600) :
    (check_user_membership cache uid force now1 (.error ())).verdict = false ∧
    dictFind (check_user_membership cache uid force now1 (.error ())).cache uid
      = some (now1, false) ∧
    (check_user_membership
        (check_user_membership cache uid force now1 (.error ())).cache
        uid false now2 lk2).verdict = false ∧
    (check_user_membership
        (check_user_membership cache uid force now1 (.error ())).cache
        uid false now2 lk2).called = false := by
  have hmiss : cacheHit cache uid force now1 = none := by
    cases hh : cacheHit cache uid force now1 with
    | none => rfl
    | some m =>
      simp [check_user_membership, hh] at hcall
  have hfind2 : dictFind (dictInsert cache uid (now1, false)) uid
      = some (now1, false) := dictFind_insert_self cache uid (now1, false)
  have hit2 : cacheHit (dictInsert cache uid (now1, false)) uid false now2
      = some false := by
    simp [cacheHit, hfind2, hfresh]
  simp [check_user_membership, hmiss, hit2, hfind2]

/-- Witness for `lookup_failure_cached_false` at a concrete cache. -/
theorem lookup_failure_cached_false_witness :
    (check_user_membership [] 7 false 100 (.error ())).called = true ∧
    150 - 100 < 3600 ∧
    ((check_user_membership [] 7 false 100 (.error ())).verdict = false ∧
     dictFind (check_user_membership [] 7 false 100 (.error ())).cache 7
        = some (100, false) ∧
     (check_user_membership
        (check_user_membership [] 7 false 100 (.error ())).cache
        7 false 150 (.ok .member)).verdict = false ∧
     (check_user_membership
        (check_user_membership [] 7 false 100 (.error ())).cache
        7 false 150 (.ok .member)).called = false) :=
  ⟨by decide, by decide,
   lookup_failure_cached_false [] 7 100 150 false (.ok .member)
     (by decide) (by decide)⟩

/-- C8: a membership-change notification overwrites the user's cache
entry with `checkedAt = now` and the verdict `isMemberStatus newSt` —
which holds exactly when the new status is `member`, `administrator`,
or `creator` — for every prior cache content, fresh, stale, or
absent. -/
theorem push_update_overwrites_record (cache : MemCache) (uid now : Nat)
    (oldSt newSt : ChatStatus) :
    dictFind (track_chat_member cache uid oldSt newSt now) uid
      = some (now, isMemberStatus newSt) ∧
    (isMemberStatus newSt = true ↔
      newSt = .member ∨ newSt = .administrator ∨ newSt = .creator) := by
  constructor
  · exact dictFind_insert_self cache uid (now, isMemberStatus newSt)
  · cases newSt <;> simp [isMemberStatus]

/-! ### Unknown request ids (claims C9, C10) -/

/-- C9: a transition attempt on a request id absent from the ledger is
answered with the plain not-found notification (caption edit for a
button press, text reply for an expected artifact) by the total — hence
non-crashing — handler, and the ledger is returned unchanged: no record
is created or modified. -/
theorem unknown_request_notfound (ledger : Ledger) (ud : AdminData)
    (action : BtnAction) (rid : Nat) (msg : Msg)
    (h : dictFind ledger rid = none) :
    handle_admin_button true ledger ud action rid
      = (ledger, ud, [Effect.editCaptionNotFound]) ∧
    (ud.sending_file_for = some rid → rid ≠ 0 → msg.document = true →
      handle_admin_message true ledger ud msg
        = (ledger, ud, [Effect.replyNotFound])) := by
  constructor
  · simp [handle_admin_button, h]
  · intro hexp hrid hdoc
    simp [handle_admin_message, hexp, hdoc, optTruthy, hrid, h]

/-- Witness for `unknown_request_notfound` on an empty ledger. -/
theorem unknown_request_notfound_witness :
    dictFind ([] : Ledger) 9 = none ∧
    (handle_admin_button true [] (expectOnly .awaitingFile 9) .approve 9
        = ([], expectOnly .awaitingFile 9, [Effect.editCaptionNotFound]) ∧
     ((expectOnly .awaitingFile 9).sending_file_for = some 9 → 9 ≠ 0 →
      ({ document := true, video := false, text := none } : Msg).document = true →
      handle_admin_message true [] (expectOnly .awaitingFile 9)
          { document := true, video := false, text := none }
        = ([], expectOnly .awaitingFile 9, [Effect.replyNotFound]))) :=
  ⟨by decide,
   unknown_request_notfound [] (expectOnly .awaitingFile 9) .approve 9
     { document := true, video := false, text := none } (by decide)⟩

/-- C10: when an admin's expected artifact arrives but the recorded
request id is absent from the ledger, the error reply is sent and the
expectation is left in place (the `del` is never reached), so the same
expectation is still consumed by a later matching artifact once the id
is present: that later call clears the context and applies the kind's
transition. -/
theorem expectation_survives_notfound (ledger ledger2 : Ledger)
    (k : ExpectKind) (rid : Nat) (req : Request) (msg : Msg)
    (hrid : rid ≠ 0) (hmsg : msgMatches k msg = true)
    (h : dictFind ledger rid = none)
    (h2 : dictFind ledger2 rid = some req) :
    handle_admin_message true ledger (expectOnly k rid) msg
      = (ledger, expectOnly k rid, [Effect.replyNotFound]) ∧
    (handle_admin_message true ledger2 (expectOnly k rid) msg).2.1 = noExpect ∧
    dictFind (handle_admin_message true ledger2 (expectOnly k rid) msg).1 rid
      = some { req with status := resolveStatus k } := by
  cases k <;>
    simp_all [handle_admin_message, expectOnly, msgMatches, optTruthy,
      resolveStatus, noExpect, dictFind_insert_self]

/-- Witness for `expectation_survives_notfound` with a reason
expectation for id 3, absent from `[]` and present in a one-entry
ledger. -/
theorem expectation_survives_notfound_witness :
    (3 : Nat) ≠ 0 ∧
    msgMatches .awaitingReason textMsg = true ∧
    dictFind ([] : Ledger) 3 = none ∧
    dictFind (sampleLedger .rejected 3) 3 = some (sampleReq .rejected 3) ∧
    (handle_admin_message true [] (expectOnly .awaitingReason 3) textMsg
      = ([], expectOnly .awaitingReason 3, [Effect.replyNotFound]) ∧
     (handle_admin_message true (sampleLedger .rejected 3)
        (expectOnly .awaitingReason 3) textMsg).2.1 = noExpect ∧
     dictFind (handle_admin_message true (sampleLedger .rejected 3)
        (expectOnly .awaitingReason 3) textMsg).1 3
       = some { sampleReq .rejected 3 with
                  status := resolveStatus .awaitingReason }) :=
  ⟨by decide, by decide, by decide, by decide,
   expectation_survives_notfound [] (sampleLedger .rejected 3)
     .awaitingReason 3 (sampleReq .rejected 3) textMsg
     (by decide) (by decide) (by decide) (by decide)⟩

/-! ### Admin context resolve-once (claim C7) -/

/-- C7: with no recorded expectation any admin message is inert (no
transition, no state change); after exactly one expectation is
recorded, a matching artifact consumes it — the kind's transition is
applied and the context is cleared — and a second message of any shape
then finds the context absent and causes no further ledger change. -/
theorem resolve_exactly_once (ledger : Ledger) (k : ExpectKind) (rid : Nat)
    (req : Request) (msg m2 : Msg)
    (hrid : rid ≠ 0) (h : dictFind ledger rid = some req)
    (hmsg : msgMatches k msg = true) :
    handle_admin_message true ledger noExpect m2 = (ledger, noExpect, []) ∧
    (handle_admin_message true ledger (expectOnly k rid) msg).2.1 = noExpect ∧
    dictFind (handle_admin_message true ledger (expectOnly k rid) msg).1 rid
      = some { req with status := resolveStatus k } ∧
    handle_admin_message true
        (handle_admin_message true ledger (expectOnly k rid) msg).1
        (handle_admin_message true ledger (expectOnly k rid) msg).2.1 m2
      = ((handle_admin_message true ledger (expectOnly k rid) msg).1,
         (handle_admin_message true ledger (expectOnly k rid) msg).2.1, []) := by
  have hinert : ∀ l : Ledger, ∀ m : Msg,
      handle_admin_message true l noExpect m = (l, noExpect, []) := by
    intro l m
    simp [handle_admin_message, noExpect, optTruthy]
  have hclear : (handle_admin_message true ledger (expectOnly k rid) msg).2.1
      = noExpect := by
    cases k <;>
      simp_all [handle_admin_message, expectOnly, msgMatches, optTruthy, noExpect]
  refine ⟨hinert ledger m2, hclear, ?_, ?_⟩
  · cases k <;>
      simp_all [handle_admin_message, expectOnly, msgMatches, optTruthy,
        resolveStatus, dictFind_insert_self]
  · rw [hclear, hinert]

/-- Witness for `resolve_exactly_once`: a file expectation for id 4 on
a one-entry ledger, consumed by a video upload. -/
theorem resolve_exactly_once_witness :
    (4 : Nat) ≠ 0 ∧
    dictFind (sampleLedger .approved 4) 4 = some (sampleReq .approved 4) ∧
    msgMatches .awaitingFile vidMsg = true ∧
    (handle_admin_message true (sampleLedger .approved 4) noExpect vidMsg
      = (sampleLedger .approved 4, noExpect, []) ∧
     (handle_admin_message true (sampleLedger .approved 4)
        (expectOnly .awaitingFile 4) vidMsg).2.1 = noExpect ∧
     dictFind (handle_admin_message true (sampleLedger .approved 4)
        (expectOnly .awaitingFile 4) vidMsg).1 4
       = some { sampleReq .approved 4 with
                  status := resolveStatus .awaitingFile } ∧
     handle_admin_message true
        (handle_admin_message true (sampleLedger .approved 4)
          (expectOnly .awaitingFile 4) vidMsg).1
        (handle_admin_message true (sampleLedger .approved 4)
          (expectOnly .awaitingFile 4) vidMsg).2.1 vidMsg
      = ((handle_admin_message true (sampleLedger .approved 4)
           (expectOnly .awaitingFile 4) vidMsg).1,
         (handle_admin_message true (sampleLedger .approved 4)
           (expectOnly .awaitingFile 4) vidMsg).2.1, [])) :=
  ⟨by decide, by decide, by decide,
   resolve_exactly_once (sampleLedger .approved 4) .awaitingFile 4
     (sampleReq .approved 4) vidMsg vidMsg
     (by decide) (by decide) (by decide)⟩

/-! ### State-machine claims (C1, C2) -/

/-- C1 counterexample: a run of the handlers in which a request reaches
`completed` without ever being `approved`.  The request is created
(`pending`), the admin presses the `sendfile` button (the handler
records the expectation without checking the status, which stays
`pending`), and the uploaded document then sets the status straight to
`completed` — the complete status history is `pending, pending,
completed`, never `approved`, and `completed` was entered from
`pending`, so the §4.2 graph is not enforced by the code. -/
theorem completed_without_approved :
    dictFind (handle_photo_create [] 5 50 100).1 100
      = some { user_id := 5, message_id := 50, status := Status.pending,
               timestamp := 100 } ∧
    dictFind (handle_admin_button true (handle_photo_create [] 5 50 100).1
        noExpect .sendfile 100).1 100
      = some { user_id := 5, message_id := 50, status := Status.pending,
               timestamp := 100 } ∧
    dictFind (handle_admin_message true
        (handle_admin_button true (handle_photo_create [] 5 50 100).1
          noExpect .sendfile 100).1
        (handle_admin_button true (handle_photo_create [] 5 50 100).1
          noExpect .sendfile 100).2.1
        docMsg).1 100
      = some { user_id := 5, message_id := 50, status := Status.completed,
               timestamp := 100 } := by
  decide

/-- C1 amended: each ledger write sets the status determined by the
triggering action alone — `approve` yields `approved`, `reject` yields
`rejected`, and a resolved expectation of kind `k` yields
`resolveStatus k` — irrespective of the request's current status, so
the handlers never consult the §4.2 graph: no state is terminal, the
branches are not separated, and `completed` is reachable without
`approved`. -/
theorem status_determined_by_action (ledger : Ledger) (ud : AdminData)
    (rid : Nat) (req : Request) (k : ExpectKind) (msg : Msg)
    (h : dictFind ledger rid = some req) (hrid : rid ≠ 0)
    (hmsg : msgMatches k msg = true) :
    dictFind (handle_admin_button true ledger ud .approve rid).1 rid
      = some { req with status := Status.approved } ∧
    dictFind (handle_admin_button true ledger ud .reject rid).1 rid
      = some { req with status := Status.rejected } ∧
    dictFind (handle_admin_message true ledger (expectOnly k rid) msg).1 rid
      = some { req with status := resolveStatus k } := by
  refine ⟨?_, ?_, ?_⟩
  · simp [handle_admin_button, h, dictFind_insert_self]
  · simp [handle_admin_button, h, dictFind_insert_self]
  · cases k <;>
      simp_all [handle_admin_message, expectOnly, msgMatches, optTruthy,
        resolveStatus, dictFind_insert_self]

/-- Witness for `status_determined_by_action` on a `completed` request:
all three writes fire from a state the §4.2 graph calls terminal. -/
theorem status_determined_by_action_witness :
    dictFind (sampleLedger .completed 8) 8 = some (sampleReq .completed 8) ∧
    (8 : Nat) ≠ 0 ∧
    msgMatches .awaitingChannelPost docMsg = true ∧
    (dictFind (handle_admin_button true (sampleLedger .completed 8) noExpect
        .approve 8).1 8
      = some { sampleReq .completed 8 with status := Status.approved } ∧
     dictFind (handle_admin_button true (sampleLedger .completed 8) noExpect
        .reject 8).1 8
      = some { sampleReq .completed 8 with status := Status.rejected } ∧
     dictFind (handle_admin_message true (sampleLedger .completed 8)
        (expectOnly .awaitingChannelPost 8) docMsg).1 8
      = some { sampleReq .completed 8 with
                 status := resolveStatus .awaitingChannelPost }) :=
  ⟨by decide, by decide, by decide,
   status_determined_by_action (sampleLedger .completed 8) noExpect 8
     (sampleReq .completed 8) .awaitingChannelPost docMsg
     (by decide) (by decide) (by decide)⟩

/-- C2 counterexample: `approve` on an already-`completed` request does
not fail — the handler emits the normal approval effects (caption edit
and user notification, no error) and overwrites the status back to
`approved`, instead of failing with `InvalidTransition` and leaving the
status unchanged. -/
theorem approve_completed_succeeds :
    dictFind (handle_admin_button true (sampleLedger .completed 7) noExpect
        .approve 7).1 7
      = some { sampleReq .completed 7 with status := Status.approved } ∧
    (handle_admin_button true (sampleLedger .completed 7) noExpect
        .approve 7).2.2
      = [Effect.editCaptionApproved, Effect.notifyUserApproved 5 7] := by
  decide

/-- C2 amended: for a request present in the ledger no action ever
fails — the handlers contain no legality check against the current
status, and no `InvalidTransition` error exists in the code: every
button action on an existing request emits only its success effects
(never a not-found or error notification), and in particular `approve`
sets the status to `approved` from any current status. -/
theorem no_invalid_transition_check (ledger : Ledger) (ud : AdminData)
    (a : BtnAction) (rid : Nat) (req : Request)
    (h : dictFind ledger rid = some req) :
    Effect.editCaptionNotFound ∉ (handle_admin_button true ledger ud a rid).2.2 ∧
    Effect.replyNotFound ∉ (handle_admin_button true ledger ud a rid).2.2 ∧
    dictFind (handle_admin_button true ledger ud .approve rid).1 rid
      = some { req with status := Status.approved } := by
  cases a <;> simp [handle_admin_button, h, dictFind_insert_self]

/-- Witness for `no_invalid_transition_check`: approving a `completed`
request succeeds with no error effect. -/
theorem no_invalid_transition_check_witness :
    dictFind (sampleLedger .completed 6) 6 = some (sampleReq .completed 6) ∧
    (Effect.editCaptionNotFound ∉
       (handle_admin_button true (sampleLedger .completed 6) noExpect
         .approve 6).2.2 ∧
     Effect.replyNotFound ∉
       (handle_admin_button true (sampleLedger .completed 6) noExpect
         .approve 6).2.2 ∧
     dictFind (handle_admin_button true (sampleLedger .completed 6) noExpect
         .approve 6).1 6
       = some { sampleReq .completed 6 with status := Status.approved }) :=
  ⟨by decide,
   no_invalid_transition_check (sampleLedger .completed 6) noExpect .approve 6
     (sampleReq .completed 6) (by decide)⟩

/-! ### Identifier generation (claim C3) -/

/-- C3 counterexample: two distinct creations (users 5 and 6) in the
same wall-clock second 1000 are assigned the same request id, and the
second creation overwrites the first: afterwards the ledger holds only
user 6's record. -/
theorem same_second_creation_overwrites :
    (handle_photo_create [] 5 50 1000).2
      = (handle_photo_create (handle_photo_create [] 5 50 1000).1
           6 60 1000).2 ∧
    (handle_photo_create (handle_photo_create [] 5 50 1000).1 6 60 1000).1
      = [(1000, { user_id := 6, message_id := 60, status := Status.pending,
                  timestamp := 1000 })] := by
  decide

/-- C3 amended: request ids are unique and creation never overwrites an
existing record only when the creations happen in distinct wall-clock
seconds — the id is the creation second, so for `t1 ≠ t2` the two ids
differ and both records remain in the ledger. -/
theorem distinct_second_ids_unique (ledger : Ledger)
    (u1 m1 t1 u2 m2 t2 : Nat) (hne : t1 ≠ t2) :
    (handle_photo_create ledger u1 m1 t1).2
      ≠ (handle_photo_create (handle_photo_create ledger u1 m1 t1).1
           u2 m2 t2).2 ∧
    dictFind (handle_photo_create (handle_photo_create ledger u1 m1 t1).1
        u2 m2 t2).1 t1
      = some { user_id := u1, message_id := m1, status := Status.pending,
               timestamp := t1 } ∧
    dictFind (handle_photo_create (handle_photo_create ledger u1 m1 t1).1
        u2 m2 t2).1 t2
      = some { user_id := u2, message_id := m2, status := Status.pending,
               timestamp := t2 } := by
  refine ⟨hne, ?_, dictFind_insert_self _ _ _⟩
  show dictFind (dictInsert (dictInsert ledger t1 _) t2 _) t1 = _
  rw [dictFind_insert_ne _ t2 t1 _ (Ne.symm hne)]
  exact dictFind_insert_self _ _ _

/-- Witness for `distinct_second_ids_unique` at seconds 1000 and 1001. -/
theorem distinct_second_ids_unique_witness :
    (1000 : Nat) ≠ 1001 ∧
    ((handle_photo_create [] 5 50 1000).2
       ≠ (handle_photo_create (handle_photo_create [] 5 50 1000).1
            6 60 1001).2 ∧
     dictFind (handle_photo_create (handle_photo_create [] 5 50 1000).1
         6 60 1001).1 1000
       = some { user_id := 5, message_id := 50, status := Status.pending,
                timestamp := 1000 } ∧
     dictFind (handle_photo_create (handle_photo_create [] 5 50 1000).1
         6 60 1001).1 1001
       = some { user_id := 6, message_id := 60, status := Status.pending,
                timestamp := 1001 }) :=
  ⟨by decide, distinct_second_ids_unique [] 5 50 1000 6 60 1001 (by decide)⟩

/-! ### Admin expectations are independent fields (claim C4) -/

/-- C4 counterexample: an admin presses `sendreason` for request 1 and
then `sendfile` for request 2; afterwards the context holds BOTH
expectations — the prior `sending_reason_for` entry is not discarded by
the new `sendfile` expectation, so the admin does not hold exactly one
outstanding expectation. -/
theorem two_expectations_coexist :
    ((handle_admin_button true
        [(1, { user_id := 5, message_id := 50, status := Status.rejected,
               timestamp := 1 }),
         (2, { user_id := 6, message_id := 60, status := Status.approved,
               timestamp := 2 })]
        (handle_admin_button true
          [(1, { user_id := 5, message_id := 50, status := Status.rejected,
                 timestamp := 1 }),
           (2, { user_id := 6, message_id := 60, status := Status.approved,
                 timestamp := 2 })]
          noExpect .sendreason 1).2.1
        .sendfile 2).2.1).sending_reason_for = some 1 ∧
    ((handle_admin_button true
        [(1, { user_id := 5, message_id := 50, status := Status.rejected,
               timestamp := 1 }),
         (2, { user_id := 6, message_id := 60, status := Status.approved,
               timestamp := 2 })]
        (handle_admin_button true
          [(1, { user_id := 5, message_id := 50, status := Status.rejected,
                 timestamp := 1 }),
           (2, { user_id := 6, message_id := 60, status := Status.approved,
                 timestamp := 2 })]
          noExpect .sendreason 1).2.1
        .sendfile 2).2.1).sending_file_for = some 2 := by
  decide

/-- C4 amended: recording an expectation replaces only the previous
expectation of the SAME kind — each of the three kinds lives in its own
`user_data` key, and the handler leaves the other two keys exactly as
they were, so previously recorded expectations of other kinds persist
and an admin can hold up to three outstanding expectations at once. -/
theorem expect_same_kind_overwrites (ledger : Ledger) (ud : AdminData)
    (rid : Nat) (req : Request) (h : dictFind ledger rid = some req) :
    (handle_admin_button true ledger ud .sendfile rid).2.1
      = { ud with sending_file_for := some rid } ∧
    (handle_admin_button true ledger ud .postchannel rid).2.1
      = { ud with posting_channel_for := some rid } ∧
    (handle_admin_button true ledger ud .sendreason rid).2.1
      = { ud with sending_reason_for := some rid } := by
  simp [handle_admin_button, h]

/-- Witness for `expect_same_kind_overwrites` on a context already
holding a reason expectation. -/
theorem expect_same_kind_overwrites_witness :
    dictFind (sampleLedger .approved 2) 2 = some (sampleReq .approved 2) ∧
    ((handle_admin_button true (sampleLedger .approved 2)
        (expectOnly .awaitingReason 1) .sendfile 2).2.1
      = { expectOnly .awaitingReason 1 with sending_file_for := some 2 } ∧
     (handle_admin_button true (sampleLedger .approved 2)
        (expectOnly .awaitingReason 1) .postchannel 2).2.1
      = { expectOnly .awaitingReason 1 with posting_channel_for := some 2 } ∧
     (handle_admin_button true (sampleLedger .approved 2)
        (expectOnly .awaitingReason 1) .sendreason 2).2.1
      = { expectOnly .awaitingReason 1 with sending_reason_for := some 2 }) :=
  ⟨by decide,
   expect_same_kind_overwrites (sampleLedger .approved 2)
     (expectOnly .awaitingReason 1) 2 (sampleReq .approved 2) (by decide)⟩

end ReqBot
